import Mathlib

/-!
Verification of the data-transform core of the US population dashboard
(`streamlit_app.py`): the year-over-year delta calculator
(`calculate_population_difference`), the migration classifier
(the `states_migration_greater` / `states_migration_less` computation,
called `classify_migration` in the design document), the number formatter
(`format_number`) and the year filter / population ranking
(`df_selected_year`, `df_selected_year_sorted`).

Modelling conventions:
* a pandas DataFrame row of the reshaped CSV is a `Row`; a DataFrame is a
  `List Row` in row order;
* Python `float` arithmetic is modelled by exact rationals (`Rat`); the
  built-in `round` is round-half-to-even, modelled by `pyRound`;
* `DataFrame.sort_values(by=k, ascending=False)` is modelled after pandas'
  `nargsort`: an ascending argsort followed by reversal of the index array
  (for slices below numpy's small-sort cutoff the ascending argsort is a
  stable insertion sort, so the model uses a stable ascending sort);
* `Series.sub(other, fill_value=0)` after `reset_index()` aligns the two
  series on the positional index `0..n-1`; assigning the result back as a
  column of the selected-year frame drops indices beyond that frame.
  `sub_fill_value_zero` reproduces exactly this positional alignment;
* the Python `ZeroDivisionError` raised when dividing by a zero state
  count is modelled by `Except.error`.
-/

/-- One record of the reshaped CSV: columns `states`, `states_code`, `id`,
`year`, `population`. -/
structure Row where
  states : String
  states_code : String
  id : Int
  year : Int
  population : Int
deriving DecidableEq

/-- One output record of `calculate_population_difference`: the source
concatenates exactly the columns `states`, `id`, `population`,
`population_difference` (dropping `states_code` and `year`). -/
structure DeltaRecord where
  states : String
  id : Int
  population : Int
  population_difference : Int
deriving DecidableEq

/-- The migration summary shown by the two donut charts. -/
structure MigrationSummary where
  inbound_pct : Int
  outbound_pct : Int
deriving DecidableEq

/-- Python's built-in `round` to an integer on an exact rational value:
round half to even. `q.num / q.den` is the floor of `q` (the denominator
is positive), computed with integer division so that the definition
evaluates by kernel reduction. -/
def pyRound (q : Rat) : Int :=
  let f : Int := q.num / q.den
  if q < (f : Rat) + 1 / 2 then f
  else if (f : Rat) + 1 / 2 < q then f + 1
  else if f % 2 = 0 then f else f + 1

/-- `format_number` from the source:
```
def format_number(num):
    if num > 1000000:
        if not num % 1000000:
            return f'{num // 1000000} M'
        return f'{round(num / 1000000, 1)} M'
    return f'{num // 1000} K'
```
The one-decimal branch `round(num / 1000000, 1)` is modelled as the
half-to-even rounding of `num / 100000` to an integer number of tenths,
rendered as `"<tenths / 10>.<tenths % 10> M"`, matching Python's rendering
of the rounded float (always one decimal digit). -/
def format_number (num : Nat) : String :=
  if 1000000 < num then
    if num % 1000000 = 0 then toString (num / 1000000) ++ " M"
    else
      let m : Int := pyRound ((num : Rat) / 100000)
      toString (m / 10) ++ "." ++ toString (m % 10) ++ " M"
  else toString (num / 1000) ++ " K"

/-- The piecewise contract for `format_number` as the specification words
it: an exact-multiple M branch guarded by `n > 1,000,000` and
`1,000,000 ∣ n`, a rounded one-decimal M branch for the other
`n > 1,000,000`, and the floor-division K branch for every
`n ≤ 1,000,000`. Stated separately from `format_number` so the two can be
compared. -/
def format_number_contract (num : Nat) : String :=
  if 1000000 < num ∧ 1000000 ∣ num then toString (num / 1000000) ++ " M"
  else if 1000000 < num then
    let m : Int := pyRound ((num : Rat) / 100000)
    toString (m / 10) ++ "." ++ toString (m % 10) ++ " M"
  else toString (num / 1000) ++ " K"

/-- `DataFrame.sort_values(by=key, ascending=False)` with the default
`kind='quicksort'`, as pandas implements it (`nargsort`): compute an
ascending argsort of the key column and reverse the resulting index
array. On slices below numpy's small-sort cutoff the ascending argsort is
a stable insertion sort, modelled by `List.insertionSort` with the
non-strict key order. -/
def pandas_sort_desc {α : Type} (key : α → Int) (l : List α) : List α :=
  (List.insertionSort (fun a b => key a ≤ key b) l).reverse

/-- `df_selected_year = df_reshaped[df_reshaped.year == selected_year]`:
the Year Slice, in table order. -/
def df_selected_year (tbl : List Row) (y : Int) : List Row :=
  tbl.filter (fun r => r.year = y)

/-- `df_selected_year_sorted = df_selected_year.sort_values(by="population",
ascending=False)`. -/
def df_selected_year_sorted (tbl : List Row) (y : Int) : List Row :=
  pandas_sort_desc (fun r => r.population) (df_selected_year tbl y)

/-- `selected_year_data.population.sub(previous_year_data.population,
fill_value=0)` followed by the assignment back into `selected_year_data`:
both frames carry the positional index `0..n-1` after `reset_index()`, so
the subtraction pairs row `i` of the selected year with row `i` of the
previous year; a missing previous-year position contributes 0, and
previous-year positions beyond the selected frame are dropped by the
column assignment. -/
def sub_fill_value_zero : List Row → List Row → List DeltaRecord
  | [], _ => []
  | c :: cs, [] =>
      ⟨c.states, c.id, c.population, c.population⟩ :: sub_fill_value_zero cs []
  | c :: cs, p :: ps =>
      ⟨c.states, c.id, c.population, c.population - p.population⟩ ::
        sub_fill_value_zero cs ps

/-- `calculate_population_difference(input_df, input_year)` from the
source: filter the selected year (`input_df[input_df['year'] ==
input_year]`, the `df_selected_year` slice at `input_year`) and the
previous year (the same slice at `input_year - 1`), subtract the
population series positionally with `fill_value=0`, keep columns
`states, id, population, population_difference`, and sort descending by
`population_difference`. -/
def calculate_population_difference (input_df : List Row) (input_year : Int) :
    List DeltaRecord :=
  pandas_sort_desc (fun d => d.population_difference)
    (sub_fill_value_zero
      (df_selected_year input_df input_year)
      (df_selected_year input_df (input_year - 1)))

/-- The migration classifier (source lines 305-312), with the threshold
(50000 in the source) as a parameter as in the design contract
`classify_migration(deltas, threshold)`:
`round((len(df_greater)/df.states.nunique())*100)` and the analogous
outbound percentage. A zero distinct-state count makes Python raise
`ZeroDivisionError`, modelled by `Except.error`. -/
def classify_migration (deltas : List DeltaRecord) (threshold : Int) :
    Except String MigrationSummary :=
  let n := ((deltas.map (fun d => d.states)).dedup).length
  if n = 0 then Except.error "ZeroDivisionError"
  else
    let inbound := (deltas.filter (fun d => threshold < d.population_difference)).length
    let outbound := (deltas.filter (fun d => d.population_difference < -threshold)).length
    Except.ok
      ⟨pyRound (((inbound : Rat) / (n : Rat)) * 100),
       pyRound (((outbound : Rat) / (n : Rat)) * 100)⟩

/-- Helper: the descending pandas sort is non-increasing in the key. -/
theorem pandas_sort_desc_pairwise {α : Type} (key : α → Int) (l : List α) :
    (pandas_sort_desc key l).Pairwise (fun a b => key b ≤ key a) := by
  haveI : IsTotal α (fun a b => key a ≤ key b) := ⟨fun a b => le_total _ _⟩
  haveI : IsTrans α (fun a b => key a ≤ key b) := ⟨fun _ _ _ h1 h2 => le_trans h1 h2⟩
  have h := List.sorted_insertionSort (fun a b => key a ≤ key b) l
  exact List.pairwise_reverse.mpr h

/-- Helper: the descending pandas sort permutes its input. -/
theorem pandas_sort_desc_perm {α : Type} (key : α → Int) (l : List α) :
    (pandas_sort_desc key l).Perm l :=
  (List.reverse_perm _).trans (List.perm_insertionSort _ l)

/-- Helper: `pyRound` of a nonnegative rational is nonnegative. -/
theorem pyRound_nonneg (q : Rat) (h : 0 ≤ q) : 0 ≤ pyRound q := by
  have h0 : (0 : Int) ≤ ⌊q⌋ := Int.floor_nonneg.mpr h
  rw [Rat.floor_def] at h0
  simp only [pyRound]
  split_ifs <;> omega

/-- Helper: `pyRound` never exceeds an integer upper bound of its
argument. -/
theorem pyRound_le_int (q : Rat) (B : Int) (h : q ≤ (B : Rat)) :
    pyRound q ≤ B := by
  have hfB : ⌊q⌋ ≤ B := by
    have hm := Int.floor_le_floor h
    rwa [Int.floor_intCast] at hm
  rw [Rat.floor_def] at hfB
  simp only [pyRound]
  split_ifs with h1 h2 h3
  · exact hfB
  · have hlt : ((q.num / (q.den : Int) : Int) : Rat) + 1 / 2 < (B : Rat) :=
      lt_of_lt_of_le h2 h
    have hq : ((q.num / (q.den : Int) : Int) : Rat) < (B : Rat) := by linarith
    have : (q.num / (q.den : Int) : Int) < B := by exact_mod_cast hq
    omega
  · exact hfB
  · have hle : ((q.num / (q.den : Int) : Int) : Rat) + 1 / 2 ≤ (B : Rat) :=
      le_trans (not_lt.mp h1) h
    have hq : ((q.num / (q.den : Int) : Int) : Rat) < (B : Rat) := by linarith
    have : (q.num / (q.den : Int) : Int) < B := by exact_mod_cast hq
    omega

/-- Helper: the positional subtraction's differences sum to the
difference of the population sums whenever the previous-year list is no
longer than the current-year list. -/
theorem sub_fill_value_zero_sum :
    ∀ (c p : List Row), p.length ≤ c.length →
      ((sub_fill_value_zero c p).map (fun d => d.population_difference)).sum
        = (c.map (fun r => r.population)).sum
          - (p.map (fun r => r.population)).sum := by
  intro c
  induction c with
  | nil =>
    intro p hp
    have hnil : p = [] := List.eq_nil_of_length_eq_zero (Nat.le_zero.mp hp)
    subst hnil
    simp [sub_fill_value_zero]
  | cons ch ct ih =>
    intro p hp
    cases p with
    | nil =>
      have h0 := ih [] (Nat.zero_le _)
      simp only [sub_fill_value_zero, List.map_cons, List.sum_cons,
        List.map_nil, List.sum_nil] at h0 ⊢
      omega
    | cons ph pt =>
      have h0 := ih pt (Nat.le_of_succ_le_succ hp)
      simp only [sub_fill_value_zero, List.map_cons, List.sum_cons] at h0 ⊢
      omega

/-- C2 counterexample: `format_number` applied to exactly 1,000,000 does
not return `"1 M"` (the comparison `num > 1000000` is strict, so the
boundary takes the K branch and yields `"1000 K"`). -/
theorem format_number_million_not_one_M : format_number 1000000 ≠ "1 M" := by
  with_unfolding_all decide

/-- C2 (amended): `format_number` applied to exactly 1,000,000 returns
`"1000 K"` — the strict `>` guard sends the boundary to the K branch. -/
theorem format_number_million_eq_thousand_K :
    format_number 1000000 = "1000 K" := by
  with_unfolding_all decide

/-- C3: `format_number` satisfies the piecewise contract of the
specification: an exact-multiple integer-division M branch for
`n > 1,000,000` with `1,000,000 ∣ n`, a one-decimal rounded M branch for
the other `n > 1,000,000`, and the floor-division K branch for every
`n ≤ 1,000,000` (including the boundary `n = 1,000,000` and all
`n < 1000`). -/
theorem format_number_piecewise_contract :
    ∀ num : Nat, format_number num = format_number_contract num := by
  intro num
  by_cases h1 : 1000000 < num
  · by_cases h2 : num % 1000000 = 0
    · have hd : 1000000 ∣ num := Nat.dvd_of_mod_eq_zero h2
      simp [format_number, format_number_contract, h1, h2, hd]
    · have hd : ¬ 1000000 ∣ num := fun hdvd => h2 (Nat.mod_eq_zero_of_dvd hdvd)
      simp [format_number, format_number_contract, h1, h2, hd]
  · simp [format_number, format_number_contract, h1]

/-- A two-row table whose 2019 slice has two distinct states with equal
population, used to exhibit the tie order of the descending sort. -/
def tie_tbl : List Row :=
  [⟨"Alpha", "AL", 1, 2019, 5⟩, ⟨"Beta", "BE", 2, 2019, 5⟩]

/-- C4 counterexample: on a Year Slice holding two distinct states with
equal population, `df_selected_year_sorted` returns the equal-population
records in the reverse of their input order (pandas reverses a stable
ascending sort to implement `ascending=False`), so the claimed
input-order tie stability fails. -/
theorem sort_ties_not_input_order :
    df_selected_year tie_tbl 2019
        = [⟨"Alpha", "AL", 1, 2019, 5⟩, ⟨"Beta", "BE", 2, 2019, 5⟩]
      ∧ (⟨"Alpha", "AL", 1, 2019, 5⟩ : Row).population
          = (⟨"Beta", "BE", 2, 2019, 5⟩ : Row).population
      ∧ df_selected_year_sorted tie_tbl 2019
          = [⟨"Beta", "BE", 2, 2019, 5⟩, ⟨"Alpha", "AL", 1, 2019, 5⟩]
      ∧ (⟨"Alpha", "AL", 1, 2019, 5⟩ : Row) ≠ ⟨"Beta", "BE", 2, 2019, 5⟩ := by
  refine ⟨by with_unfolding_all rfl, rfl, by with_unfolding_all rfl, ?_⟩
  intro hcontra
  exact absurd (congrArg Row.states hcontra) (by with_unfolding_all decide)

/-- C4 (amended): for every table and year, `select_year` followed by the
descending population sort yields a sequence whose population values are
non-increasing; the tie order of equal-population records is not the
input order (the code reverses an ascending sort). -/
theorem selected_year_sorted_nonincreasing (tbl : List Row) (y : Int) :
    ((df_selected_year_sorted tbl y).map (fun r => r.population)).Pairwise
      (fun a b => b ≤ a) := by
  have h := pandas_sort_desc_pairwise (fun r => r.population)
    (df_selected_year tbl y)
  exact (List.pairwise_map).mpr h

/-- C6: every output of `calculate_population_difference` is ordered with
non-increasing `population_difference`. -/
theorem deltas_sorted_nonincreasing (tbl : List Row) (y : Int) :
    ((calculate_population_difference tbl y).map
        (fun d => d.population_difference)).Pairwise (fun a b => b ≤ a) := by
  have h := pandas_sort_desc_pairwise (fun d => d.population_difference)
    (sub_fill_value_zero (df_selected_year tbl y)
      (df_selected_year tbl (y - 1)))
  exact (List.pairwise_map).mpr h

/-- C9: a year absent from the table yields an empty Year Slice and an
empty `calculate_population_difference` result; the (total) function
raises no error. -/
theorem unknown_year_empty (tbl : List Row) (y : Int)
    (h : y ∉ tbl.map (fun r => r.year)) :
    df_selected_year tbl y = [] ∧ calculate_population_difference tbl y = [] := by
  have hfil : df_selected_year tbl y = [] := by
    unfold df_selected_year
    rw [List.filter_eq_nil_iff]
    intro a ha hy
    exact h (List.mem_map.mpr ⟨a, ha, by simpa using hy⟩)
  refine ⟨hfil, ?_⟩
  unfold calculate_population_difference
  rw [hfil]
  rfl

/-- A one-row table used to witness the unknown-year behavior. -/
def w9_tbl : List Row := [⟨"Alabama", "AL", 1, 2010, 4785437⟩]

/-- Witness for C9: the year 1999 is absent from `w9_tbl` and both the
slice and the delta output are empty there. -/
theorem unknown_year_empty_witness :
    (1999 ∉ w9_tbl.map (fun r => r.year))
      ∧ (df_selected_year w9_tbl 1999 = []
          ∧ calculate_population_difference w9_tbl 1999 = []) :=
  ⟨by with_unfolding_all decide,
   unknown_year_empty w9_tbl 1999 (by with_unfolding_all decide)⟩

/-- Eight delta records with distinct states, one above the 50,000
threshold and one below its negation, used to pin the rounding rule. -/
def c10_deltas : List DeltaRecord :=
  [⟨"S1", 1, 100, 60000⟩, ⟨"S2", 2, 100, -60000⟩, ⟨"S3", 3, 100, 0⟩,
   ⟨"S4", 4, 100, 0⟩, ⟨"S5", 5, 100, 0⟩, ⟨"S6", 6, 100, 0⟩,
   ⟨"S7", 7, 100, 0⟩, ⟨"S8", 8, 100, 0⟩]

/-- C10: the rounding rule is round half to even in both places: the
migration percentage `100 * 1 / 8 = 12.5` rounds to 12 (not 13) for both
the inbound and the outbound gauge, and `format_number` renders
1,250,000 (exactly 12.5 tenths of a million) as `"1.2 M"` (not
`"1.3 M"`). -/
theorem rounding_half_to_even_pins :
    format_number 1250000 = "1.2 M"
      ∧ classify_migration c10_deltas 50000 = Except.ok ⟨12, 12⟩ :=
  ⟨by with_unfolding_all decide, by with_unfolding_all rfl⟩

/-- C5 (amended): when the previous-year slice is no longer than the
target-year slice, the population differences sum to the difference of
the two years' total populations. -/
theorem population_difference_conservation (tbl : List Row) (y : Int)
    (hy : y ∈ tbl.map (fun r => r.year))
    (hy1 : y - 1 ∈ tbl.map (fun r => r.year))
    (hnd : ((df_selected_year tbl y).map (fun r => r.states)).Nodup)
    (hnd1 : ((df_selected_year tbl (y - 1)).map (fun r => r.states)).Nodup)
    (hlen : (df_selected_year tbl (y - 1)).length
        ≤ (df_selected_year tbl y).length) :
    ((calculate_population_difference tbl y).map
        (fun d => d.population_difference)).sum
      = ((df_selected_year tbl y).map (fun r => r.population)).sum
        - ((df_selected_year tbl (y - 1)).map (fun r => r.population)).sum := by
  have hperm := pandas_sort_desc_perm (fun d => d.population_difference)
    (sub_fill_value_zero (df_selected_year tbl y) (df_selected_year tbl (y - 1)))
  have hmap := hperm.map (fun d => d.population_difference)
  unfold calculate_population_difference
  rw [hmap.sum_eq]
  exact sub_fill_value_zero_sum _ _ hlen

/-- The end-to-end example table of the specification: states A and B in
2010 and 2011. -/
def w5_tbl : List Row :=
  [⟨"A", "AA", 1, 2010, 100⟩, ⟨"B", "BB", 2, 2010, 300⟩,
   ⟨"A", "AA", 1, 2011, 200⟩, ⟨"B", "BB", 2, 2011, 250⟩]

/-- Witness for C5: on the two-state two-year table the hypotheses hold
and the deltas sum to the total population change. -/
theorem population_difference_conservation_witness :
    (2011 ∈ w5_tbl.map (fun r => r.year))
      ∧ (2011 - 1 ∈ w5_tbl.map (fun r => r.year))
      ∧ ((df_selected_year w5_tbl 2011).map (fun r => r.states)).Nodup
      ∧ ((df_selected_year w5_tbl (2011 - 1)).map (fun r => r.states)).Nodup
      ∧ (df_selected_year w5_tbl (2011 - 1)).length
          ≤ (df_selected_year w5_tbl 2011).length
      ∧ ((calculate_population_difference w5_tbl 2011).map
            (fun d => d.population_difference)).sum
          = ((df_selected_year w5_tbl 2011).map (fun r => r.population)).sum
            - ((df_selected_year w5_tbl (2011 - 1)).map
                (fun r => r.population)).sum :=
  ⟨by with_unfolding_all decide, by with_unfolding_all decide,
   by with_unfolding_all decide, by with_unfolding_all decide,
   by with_unfolding_all decide,
   population_difference_conservation w5_tbl 2011
     (by with_unfolding_all decide) (by with_unfolding_all decide)
     (by with_unfolding_all decide) (by with_unfolding_all decide)
     (by with_unfolding_all decide)⟩

/-- A table where 2010 covers states A and B but 2011 covers only A, so
the previous-year slice is longer than the target-year slice. -/
def c5_tbl : List Row :=
  [⟨"A", "AA", 1, 2011, 10⟩, ⟨"A", "AA", 1, 2010, 5⟩, ⟨"B", "BB", 2, 2010, 3⟩]

/-- C5 counterexample: both years are present with one record per state
in each Year Slice, yet the deltas sum to 5 while the total populations
differ by 10 - (5 + 3) = 2: the 2010-only state B is dropped by the
positional subtraction, so the conservation claim fails as stated. -/
theorem conservation_fails_when_prior_larger :
    (2011 ∈ c5_tbl.map (fun r => r.year))
      ∧ (2011 - 1 ∈ c5_tbl.map (fun r => r.year))
      ∧ ((df_selected_year c5_tbl 2011).map (fun r => r.states)).Nodup
      ∧ ((df_selected_year c5_tbl (2011 - 1)).map (fun r => r.states)).Nodup
      ∧ ((calculate_population_difference c5_tbl 2011).map
            (fun d => d.population_difference)).sum = 5
      ∧ ((df_selected_year c5_tbl 2011).map (fun r => r.population)).sum
          - ((df_selected_year c5_tbl (2011 - 1)).map
              (fun r => r.population)).sum = 2
      ∧ (5 : Int) ≠ 2 := by
  with_unfolding_all decide

/-- A table whose 2011 slice lists B before A while the 2010 slice lists
A before B. -/
def c1_tbl : List Row :=
  [⟨"A", "AA", 1, 2010, 1⟩, ⟨"B", "BB", 2, 2010, 5⟩,
   ⟨"B", "BB", 2, 2011, 20⟩, ⟨"A", "AA", 1, 2011, 10⟩]

/-- C1: evaluation at the failing input. The code pairs the selected and
previous year rows positionally after `reset_index()`, so state B (first
row of the 2011 slice) is paired with state A's 2010 population and gets
difference 20 - 1 = 19, although B's own prior-year population is 5 and
the state-keyed difference would be 20 - 5 = 15. The pairing is therefore
not keyed on state, contradicting the code's own comment that
`fill_value=0` handles a state missing from the previous year. -/
theorem positional_pairing_not_state_keyed :
    calculate_population_difference c1_tbl 2011
        = [⟨"B", 2, 20, 19⟩, ⟨"A", 1, 10, 5⟩]
      ∧ (19 : Int) ≠ 20 - 5 := by
  with_unfolding_all decide

/-- Helper: a rounded percentage of a count `k` out of `n ≥ k`, `n > 0`,
lies within `[0, 100]`. -/
theorem pct_bounds (k n : Nat) (hk : k ≤ n) (hn : 0 < n) :
    0 ≤ pyRound (100 * (k : Rat) / (n : Rat))
      ∧ pyRound (100 * (k : Rat) / (n : Rat)) ≤ 100 := by
  have hn0 : (0 : Rat) < (n : Rat) := by exact_mod_cast hn
  have hq0 : 0 ≤ 100 * (k : Rat) / (n : Rat) := by positivity
  have hq100 : 100 * (k : Rat) / (n : Rat) ≤ ((100 : Int) : Rat) := by
    rw [div_le_iff₀ hn0]
    have hkn : (k : Rat) ≤ (n : Rat) := by exact_mod_cast hk
    push_cast
    nlinarith
  exact ⟨pyRound_nonneg _ hq0, pyRound_le_int _ 100 hq100⟩

/-- C7: for a non-empty delta list with at most one record per state,
`classify_migration` returns exactly the rounded percentages
`round(100 * |inbound| / distinct_state_count)` and
`round(100 * |outbound| / distinct_state_count)`, and any returned
summary has both percentages within [0, 100]. -/
theorem classify_migration_formula_bounds (deltas : List DeltaRecord)
    (threshold : Int) (hne : deltas ≠ [])
    (hnd : (deltas.map (fun d => d.states)).Nodup) :
    classify_migration deltas threshold
        = Except.ok
            ⟨pyRound (100 * ((deltas.filter
                  (fun d => threshold < d.population_difference)).length : Rat)
                / ((((deltas.map (fun d => d.states)).dedup).length : Nat) : Rat)),
             pyRound (100 * ((deltas.filter
                  (fun d => d.population_difference < -threshold)).length : Rat)
                / ((((deltas.map (fun d => d.states)).dedup).length : Nat) : Rat))⟩
      ∧ ∀ s : MigrationSummary,
          classify_migration deltas threshold = Except.ok s →
            0 ≤ s.inbound_pct ∧ s.inbound_pct ≤ 100
              ∧ 0 ≤ s.outbound_pct ∧ s.outbound_pct ≤ 100 := by
  have hded : (deltas.map (fun d => d.states)).dedup
      = deltas.map (fun d => d.states) := List.dedup_eq_self.mpr hnd
  have hnlen : ((deltas.map (fun d => d.states)).dedup).length = deltas.length := by
    rw [hded, List.length_map]
  have hpos : 0 < deltas.length := List.length_pos.mpr hne
  have hn0 : ¬ ((deltas.map (fun d => d.states)).dedup).length = 0 := by omega
  have hok : classify_migration deltas threshold
      = Except.ok
          ⟨pyRound (100 * ((deltas.filter
                (fun d => threshold < d.population_difference)).length : Rat)
              / ((((deltas.map (fun d => d.states)).dedup).length : Nat) : Rat)),
           pyRound (100 * ((deltas.filter
                (fun d => d.population_difference < -threshold)).length : Rat)
              / ((((deltas.map (fun d => d.states)).dedup).length : Nat) : Rat))⟩ := by
    simp only [classify_migration]
    rw [if_neg hn0]
    have e1 : (((deltas.filter
          (fun d => threshold < d.population_difference)).length : Rat)
          / ((((deltas.map (fun d => d.states)).dedup).length : Nat) : Rat)) * 100
        = 100 * ((deltas.filter
            (fun d => threshold < d.population_difference)).length : Rat)
          / ((((deltas.map (fun d => d.states)).dedup).length : Nat) : Rat) := by
      ring
    have e2 : (((deltas.filter
          (fun d => d.population_difference < -threshold)).length : Rat)
          / ((((deltas.map (fun d => d.states)).dedup).length : Nat) : Rat)) * 100
        = 100 * ((deltas.filter
            (fun d => d.population_difference < -threshold)).length : Rat)
          / ((((deltas.map (fun d => d.states)).dedup).length : Nat) : Rat) := by
      ring
    rw [e1, e2]
  refine ⟨hok, ?_⟩
  intro s hs
  rw [hok] at hs
  obtain rfl : _ = s := Except.ok.inj hs
  simp only
  rw [hnlen]
  have hin := pct_bounds
    ((deltas.filter (fun d => threshold < d.population_difference)).length)
    deltas.length (List.length_filter_le _ _) hpos
  have hout := pct_bounds
    ((deltas.filter (fun d => d.population_difference < -threshold)).length)
    deltas.length (List.length_filter_le _ _) hpos
  exact ⟨hin.1, hin.2, hout.1, hout.2⟩

/-- Four delta records over distinct states, one above the threshold and
one below its negation. -/
def w7_deltas : List DeltaRecord :=
  [⟨"T1", 1, 100, 70000⟩, ⟨"T2", 2, 100, -70000⟩,
   ⟨"T3", 3, 100, 10⟩, ⟨"T4", 4, 100, -10⟩]

/-- Witness for C7 at the four-state list with threshold 50000. -/
theorem classify_migration_formula_bounds_witness :
    (w7_deltas ≠ [])
      ∧ (w7_deltas.map (fun d => d.states)).Nodup
      ∧ (classify_migration w7_deltas 50000
            = Except.ok
                ⟨pyRound (100 * ((w7_deltas.filter
                      (fun d => 50000 < d.population_difference)).length : Rat)
                    / ((((w7_deltas.map (fun d => d.states)).dedup).length : Nat) : Rat)),
                 pyRound (100 * ((w7_deltas.filter
                      (fun d => d.population_difference < -50000)).length : Rat)
                    / ((((w7_deltas.map (fun d => d.states)).dedup).length : Nat) : Rat))⟩
          ∧ ∀ s : MigrationSummary,
              classify_migration w7_deltas 50000 = Except.ok s →
                0 ≤ s.inbound_pct ∧ s.inbound_pct ≤ 100
                  ∧ 0 ≤ s.outbound_pct ∧ s.outbound_pct ≤ 100) :=
  ⟨by with_unfolding_all decide, by with_unfolding_all decide,
   classify_migration_formula_bounds w7_deltas 50000
     (by with_unfolding_all decide) (by with_unfolding_all decide)⟩

/-- C8: a zero distinct-state count (an empty delta set) makes
`classify_migration` fail with the division-by-zero error instead of
returning a summary. -/
theorem classify_migration_zero_states (deltas : List DeltaRecord)
    (threshold : Int)
    (h : ((deltas.map (fun d => d.states)).dedup).length = 0) :
    classify_migration deltas threshold = Except.error "ZeroDivisionError" := by
  simp only [classify_migration]
  rw [if_pos h]

/-- Witness for C8 at the empty delta list. -/
theorem classify_migration_zero_states_witness :
    ((([] : List DeltaRecord).map (fun d => d.states)).dedup).length = 0
      ∧ classify_migration [] 50000 = Except.error "ZeroDivisionError" :=
  ⟨rfl, classify_migration_zero_states [] 50000 rfl⟩
